import Mathlib

/-!
Shallow embedding of the API views in `src/server/api/views.py`
(`activity_events`, `activity_counts`, `first_touchpoints`,
`random_activity_events`, `random_persons`) together with the parts of
their environment that their behaviour depends on:

* datetimes are modelled as natural numbers; the ISO rendering of a
  datetime is its decimal numeral, so `datetime.fromisoformat` becomes
  numeral parsing (any other string raises `ValueError`, modelled as
  `none`);
* the database is a pair of lists (events, persons); Django's
  `QuerySet.filter` is `List.filter`, `order_by("timestamp")` is a sort by
  timestamp (tie order is unspecified in the source, so any fixed sort is
  a faithful model), `order_by("?")` is an arbitrary permutation supplied
  as a parameter, and `Person.objects.get(id=...)` is `List.find?`
  (`id` is the primary key, hence unique);
* Django's `Paginator`/`get_page` (orphans = 0, allow_empty_first_page =
  true) and Python's slice and `int()` semantics are modelled explicitly;
* an HTTP handler returns `ok` (200 body), `badRequest` (a 400
  `JsonResponse` whose body is the single-key object `\x7b"error": msg\x7d`),
  or `exn` (an exception the view does not catch, surfacing as a
  framework-level 500).
-/

namespace Upside

/-- Python truthiness of an optional string (`None` and `""` are falsy). -/
def truthy : Option String → Bool
  | none => false
  | some s => s ≠ ""

/-- Python `a or b` on optional strings: `a` when truthy, else `b`. -/
def pyOrStr (a b : Option String) : Option String :=
  if truthy a then a else b

/-- Python `str.strip()`: remove leading and trailing whitespace.
(Structurally recursive over the character list, unlike `String.trim`,
so that concrete instances evaluate.) -/
def pyStrip (s : String) : String :=
  ⟨((s.data.dropWhile Char.isWhitespace).reverse.dropWhile Char.isWhitespace).reverse⟩

/-- Parse a nonempty all-digit string as a natural number. -/
def strToNat? (s : String) : Option Nat :=
  if s.data ≠ [] && s.data.all Char.isDigit then
    some (s.data.foldl (fun n c => n * 10 + (c.toNat - 48)) 0)
  else none

/-- Whether the first character of `s` is `c`. -/
def headIs (s : String) (c : Char) : Bool :=
  match s.data with
  | d :: _ => d = c
  | [] => false

/-- Python `int(s)`: optional surrounding whitespace, optional sign, at
least one ASCII digit; anything else raises `ValueError` (`none`). -/
def pyInt? (s : String) : Option Int :=
  let t := pyStrip s
  let neg := headIs t '-'
  let core : String := if neg || headIs t '+' then ⟨t.data.drop 1⟩ else t
  match strToNat? core with
  | some n => if neg then some (-(n : Int)) else some (n : Int)
  | none => none

/-- Modelled external library function `datetime.datetime.fromisoformat`:
datetimes are natural numbers rendered as decimal numerals, so parsing is
numeral parsing; a non-numeral string raises `ValueError` (`none`). -/
def fromisoformat (s : String) : Option Nat :=
  strToNat? s

/-- Replace every `'Z'` by `"+00:00"` in a character list. -/
def replaceZlist : List Char → List Char
  | [] => []
  | c :: cs =>
      if c = 'Z' then '+' :: '0' :: '0' :: ':' :: '0' :: '0' :: replaceZlist cs
      else c :: replaceZlist cs

/-- `s.replace('Z', '+00:00')` as applied to date parameters in the view. -/
def replaceZ (s : String) : String :=
  ⟨replaceZlist s.data⟩

/-- Modelled from the spec: an embedded person-reference inside an
`ActivityEvent`'s people list (`models.py` declares the JSON field; the
spec describes it as "a loosely structured record carrying either a person
identifier or inline name/email, plus a role-in-touchpoint tag").
Each field is optional, mirroring `dict.get` returning `None` when the
key is absent. -/
structure PersonRef where
  id : Option String
  person_id : Option String
  first_name : Option String
  last_name : Option String
  email_address : Option String
  role_in_touchpoint : Option String
deriving DecidableEq, Repr

/-- Modelled from the spec: the `Person` entity (`models.py` is not under
`src/`; the spec lists id, first name, last name, email address, customer
organization identifier). -/
structure Person where
  id : String
  first_name : String
  last_name : String
  email_address : String
  customer_org_id : String
deriving DecidableEq, Repr

/-- Modelled from the spec: the `ActivityEvent` entity (`models.py` is not
under `src/`; the spec lists identifier, timestamp, activity type, channel,
status, direction, customer organization identifier, account identifier,
involved team identifiers, and the embedded people list). -/
structure ActivityEvent where
  id : Nat
  timestamp : Nat
  activity : String
  channel : String
  status : String
  direction : String
  customer_org_id : String
  account_id : String
  involved_team_ids : List Nat
  people : List PersonRef
deriving DecidableEq, Repr

/-- The relational store the views query. -/
structure DB where
  events : List ActivityEvent
  persons : List Person
deriving DecidableEq, Repr

/-- Outcome of one view call: a 200 body, a 400 `JsonResponse` with body
`\x7b"error": error\x7d`, or an exception the view does not catch (a
framework-level 500). -/
inductive Response (α : Type) where
  | ok (body : α)
  | badRequest (error : String)
  | exn (msg : String)
deriving DecidableEq, Repr

/-- Whether the response is a 200. -/
def Response.isOk {α : Type} : Response α → Bool
  | .ok _ => true
  | _ => false

/-- Whether the response is a 400 with an `"error"` key. -/
def Response.isBadRequest {α : Type} : Response α → Bool
  | .badRequest _ => true
  | _ => false

/-- Whether the view raised an uncaught exception (framework 500). -/
def Response.isExn {α : Type} : Response α → Bool
  | .exn _ => true
  | _ => false

/-- Body of a 200 response, with a default for the other cases. -/
def Response.bodyD {α : Type} (r : Response α) (d : α) : α :=
  match r with
  | .ok b => b
  | _ => d

/-! ### The ORM queryset model -/

/-- Ordering used by `order_by("timestamp")`. -/
def tsLE (a b : ActivityEvent) : Prop :=
  a.timestamp ≤ b.timestamp

instance : DecidableRel tsLE := fun a b => Nat.decLe a.timestamp b.timestamp

instance : IsTotal ActivityEvent tsLE := ⟨fun a b => Nat.le_total a.timestamp b.timestamp⟩

instance : IsTrans ActivityEvent tsLE := ⟨fun _ _ _ => Nat.le_trans⟩

/-- `ActivityEvent.objects.filter(customer_org_id=..., account_id=...)`. -/
def scopeFilter (events : List ActivityEvent) (org acct : String) : List ActivityEvent :=
  events.filter (fun e => e.customer_org_id == org && e.account_id == acct)

/-- `.order_by("timestamp")` on a queryset (ties resolved by a fixed
stable sort; the source leaves tie order to the database). -/
def orderByTimestamp (l : List ActivityEvent) : List ActivityEvent :=
  l.insertionSort tsLE

/-- `Person.objects.get(id=pid)`: `none` models `Person.DoesNotExist`
(`id` is the primary key, so at most one row matches). -/
def personGet (persons : List Person) (pid : String) : Option Person :=
  persons.find? (fun p => p.id == pid)

/-! ### Python slicing and Django pagination -/

/-- Clamp one slice index of `s[i:j]` to `[0, len]`, Python-style
(a negative index counts from the end). -/
def pyBound (len : Nat) (i : Int) : Nat :=
  if i < 0 then ((len : Int) + i).toNat else min i.toNat len

/-- Python `l[i:j]`. -/
def pySlice {α : Type} (l : List α) (i j : Int) : List α :=
  (l.take (pyBound l.length j)).drop (pyBound l.length i)

/-- Python `ceil(a / b)` on integers (`b ≠ 0`): floor division of the
negation. At `b = 0` Python raises `ZeroDivisionError`; callers guard that
case, so the value returned here at 0 is never used. -/
def pyCeilDiv (a b : Int) : Int :=
  -(Int.fdiv (-a) b)

/-- `Paginator.num_pages` with `orphans = 0` and
`allow_empty_first_page = True`: `ceil(max(1, count) / per_page)`. -/
def numPages (count per_page : Int) : Int :=
  pyCeilDiv (max 1 count) per_page

/-- Errors inside `Paginator.validate_number`. -/
inductive PagErr where
  | empty
  | zerodiv
deriving DecidableEq, Repr

/-- `Paginator.validate_number(number)` for an integer `number`:
`EmptyPage` when `number < 1`; otherwise the comparison with `num_pages`
evaluates `num_pages`, which raises `ZeroDivisionError` when
`per_page = 0`; `number > num_pages` is `EmptyPage` unless `number = 1`
(the `allow_empty_first_page` escape). -/
def validateNumber (count per_page number : Int) : Except PagErr Int :=
  if number < 1 then .error .empty
  else if per_page = 0 then .error .zerodiv
  else if number > numPages count per_page ∧ number ≠ 1 then .error .empty
  else .ok number

/-- `Paginator.page(number)` revalidates; a failure here is not caught by
`get_page` and escapes the view. -/
def pageCall (count per_page n : Int) : Except String Int :=
  match validateNumber count per_page n with
  | .ok m => .ok m
  | .error .zerodiv => .error "ZeroDivisionError"
  | .error .empty => .error "EmptyPage"

/-- `Paginator.get_page(number)`: an `EmptyPage` from validation is
replaced by `num_pages` (computing which raises `ZeroDivisionError` when
`per_page = 0`), then `page(number)` runs. Returns the number of the page
actually served. -/
def getPageNumber (count per_page number : Int) : Except String Int :=
  match validateNumber count per_page number with
  | .ok n => pageCall count per_page n
  | .error .zerodiv => .error "ZeroDivisionError"
  | .error .empty =>
      if per_page = 0 then .error "ZeroDivisionError"
      else pageCall count per_page (numPages count per_page)

/-- The object list of `Paginator.page(n)`: `bottom = (n-1)*per_page`,
`top = bottom + per_page`, raised to `count` when it reaches it
(`orphans = 0`), then the Python slice. -/
def pageObjectList {α : Type} (l : List α) (per_page n : Int) : List α :=
  let count : Int := l.length
  let bottom := (n - 1) * per_page
  let top0 := bottom + per_page
  let top := if top0 ≥ count then count else top0
  pySlice l bottom top

/-! ### Request parameters (`request.GET`) -/

/-- Query parameters read by `activity_events`; `none` models an absent
key, `some ""` a present-but-empty value. -/
structure EventsParams where
  customer_org_id : Option String
  account_id : Option String
  page : Option String
  page_size : Option String
  start_date : Option String
  end_date : Option String
deriving DecidableEq, Repr

/-- Query parameters read by `first_touchpoints` and
`random_activity_events`. -/
structure ScopedParams where
  customer_org_id : Option String
  account_id : Option String
deriving DecidableEq, Repr

/-- Query parameters read by `activity_counts`. -/
structure CountsParams where
  customer_org_id : Option String
  account_id : Option String
  direction : Option String
deriving DecidableEq, Repr

/-- Error message returned when `customer_org_id`/`account_id` is missing. -/
def missingParamsMsg : String :=
  "Both 'customer_org_id' and 'account_id' query parameters are required."

/-! ### `activity_events`: enrichment and response shape -/

/-- `person_ref.get('id') or person_ref.get('person_id')` followed by the
`if person_id:` truthiness test: the identifier the view resolves, or
`none` when the reference carries no (truthy) identifier. -/
def resolvedPid (ref : PersonRef) : Option String :=
  let v := pyOrStr ref.id ref.person_id
  if truthy v then v else none

/-- One entry of the enriched people list: either the dictionary built
from a resolved `Person`, or the original embedded reference. -/
inductive PeopleOut where
  | enriched (id first_name last_name email_address : String)
      (role_in_touchpoint : Option String)
  | original (ref : PersonRef)
deriving DecidableEq, Repr

/-- The per-reference enrichment step of `activity_events` (lines 77-93):
resolve the identifier, look the `Person` up, fall back to the original
data on `DoesNotExist` or when there is no identifier. -/
def enrichRef (persons : List Person) (ref : PersonRef) : PeopleOut :=
  match resolvedPid ref with
  | some pid =>
      match personGet persons pid with
      | some person =>
          .enriched person.id person.first_name person.last_name
            person.email_address ref.role_in_touchpoint
      | none => .original ref
  | none => .original ref

/-- The dictionary serialized for one event (lines 95-106); `timestamp`
holds the value whose ISO rendering the JSON carries. -/
structure EventOut where
  id : Nat
  timestamp : Nat
  activity : String
  channel : String
  status : String
  people : List PeopleOut
  involved_team_ids : List Nat
  direction : String
  customer_org_id : String
  account_id : String
deriving DecidableEq, Repr

/-- Build the output dictionary for one event, including the enriched
people list (`if event.people:` guards the loop; an empty list yields an
empty enriched list either way). -/
def eventToDict (persons : List Person) (e : ActivityEvent) : EventOut :=
  let enriched_people :=
    if e.people.isEmpty then [] else e.people.map (enrichRef persons)
  ⟨e.id, e.timestamp, e.activity, e.channel, e.status, enriched_people,
    e.involved_team_ids, e.direction, e.customer_org_id, e.account_id⟩

/-- The `pagination` object of the listing response. -/
structure Pagination where
  current_page : Int
  total_pages : Int
  total_count : Int
  has_next : Bool
  has_previous : Bool
deriving DecidableEq, Repr

/-- The 200 body of `activity_events`. -/
structure EventsBody where
  events : List EventOut
  pagination : Pagination
deriving DecidableEq, Repr

/-- The `start_date` filter of `activity_events` (lines 52-58): applied
only when the parameter is truthy; a `ValueError` from parsing becomes a
400. -/
def applyStartFilter (qs : List ActivityEvent) (sd : Option String) :
    Response (List ActivityEvent) :=
  if truthy sd then
    match fromisoformat (replaceZ (sd.getD "")) with
    | some start_dt => .ok (qs.filter (fun e => start_dt ≤ e.timestamp))
    | none => .badRequest "Invalid start_date format"
  else .ok qs

/-- The `end_date` filter of `activity_events` (lines 60-65). -/
def applyEndFilter (qs : List ActivityEvent) (ed : Option String) :
    Response (List ActivityEvent) :=
  if truthy ed then
    match fromisoformat (replaceZ (ed.getD "")) with
    | some end_dt => .ok (qs.filter (fun e => e.timestamp ≤ end_dt))
    | none => .badRequest "Invalid end_date format"
  else .ok qs

/-- The date-window filters of `activity_events` (lines 52-65), in source
order: `start_date` first, then `end_date`. -/
def applyDateFilters (qs : List ActivityEvent) (sd ed : Option String) :
    Response (List ActivityEvent) :=
  match applyStartFilter qs sd with
  | .ok qs1 => applyEndFilter qs1 ed
  | r => r

/-- The scoped, timestamp-ordered base queryset of the listing view
(lines 47-50). -/
def baseQS (db : DB) (org acct : String) : List ActivityEvent :=
  orderByTimestamp (scopeFilter db.events org acct)

/-- `activity_events` (views.py lines 20-118). `int()` runs on `page` and
`page_size` before the required-parameter check, so a malformed value
raises there. Pagination mirrors `Paginator.get_page`; the response echoes
the requested `page` as `current_page`. -/
def activity_events (db : DB) (req : EventsParams) : Response EventsBody :=
  match pyInt? (req.page.getD "1") with
  | none => .exn "invalid literal for int() with base 10: page"
  | some page =>
  match pyInt? (req.page_size.getD "50") with
  | none => .exn "invalid literal for int() with base 10: page_size"
  | some page_size =>
  if !(truthy req.customer_org_id && truthy req.account_id) then
    .badRequest missingParamsMsg
  else
    match applyDateFilters
        (baseQS db (req.customer_org_id.getD "") (req.account_id.getD ""))
        req.start_date req.end_date with
    | .badRequest e => .badRequest e
    | .exn m => .exn m
    | .ok events_qs =>
      match getPageNumber (events_qs.length : Int) page_size page with
      | .error m => .exn m
      | .ok n =>
        .ok
          { events := (pageObjectList events_qs page_size n).map (eventToDict db.persons)
            pagination :=
              { current_page := page
                total_pages := numPages (events_qs.length : Int) page_size
                total_count := (events_qs.length : Int)
                has_next := n < numPages (events_qs.length : Int) page_size
                has_previous := 1 < n } }

/-! ### `activity_counts` -/

/-- `TruncDate('timestamp')`: the calendar date of a modelled datetime,
one day per 86400 ticks. -/
def truncDate (ts : Nat) : Nat :=
  ts / 86400

/-- One `{date, count}` pair of the daily-counts response; `date` holds
the value whose ISO rendering the JSON carries. -/
structure DateCount where
  date : Nat
  count : Nat
deriving DecidableEq, Repr

/-- The 200 body of `activity_counts`. -/
structure CountsBody where
  daily_counts : List DateCount
  direction : String
deriving DecidableEq, Repr

/-- The queryset filter of `activity_counts` (lines 141-147). -/
def directionFilter (events : List ActivityEvent) (org acct direction : String) :
    List ActivityEvent :=
  events.filter (fun e =>
    e.customer_org_id == org && e.account_id == acct && e.direction == direction)

/-- The grouped ordered aggregation of `activity_counts` (lines 148-151):
the SQL `GROUP BY` on `TruncDate('timestamp')` with `Count('id')` is
modelled as the distinct dates of the matching events, sorted ascending,
each paired with the number of matching events on that date. -/
def dailyCounts (matching : List ActivityEvent) : List DateCount :=
  (((matching.map (fun e => truncDate e.timestamp)).dedup).insertionSort (· ≤ ·)).map
    (fun d => ⟨d, (matching.filter (fun e => truncDate e.timestamp == d)).length⟩)

/-- `activity_counts` (views.py lines 120-166): filter by scope and
direction (default `"IN"` when the parameter is absent), group by the
calendar date of the timestamp, count per date, order ascending by date. -/
def activity_counts (db : DB) (req : CountsParams) : Response CountsBody :=
  let direction := req.direction.getD "IN"
  if !(truthy req.customer_org_id && truthy req.account_id) then
    .badRequest missingParamsMsg
  else
    .ok
      { daily_counts :=
          dailyCounts (directionFilter db.events (req.customer_org_id.getD "")
            (req.account_id.getD "") direction)
        direction := direction }

/-! ### `first_touchpoints` -/

/-- One recorded touchpoint (views.py lines 208-215); `timestamp` holds
the value whose ISO rendering the JSON carries (the view sorts by that
rendering, which is order-isomorphic to the value). -/
structure Touchpoint where
  person_id : String
  person_name : String
  email : String
  timestamp : Nat
  activity : String
  channel : String
deriving DecidableEq, Repr

/-- Ordering used by `sorted(..., key=lambda x: x['timestamp'])`. -/
def touchLE (a b : Touchpoint) : Prop :=
  a.timestamp ≤ b.timestamp

instance : DecidableRel touchLE := fun a b => Nat.decLe a.timestamp b.timestamp

instance : IsTotal Touchpoint touchLE := ⟨fun a b => Nat.le_total a.timestamp b.timestamp⟩

instance : IsTrans Touchpoint touchLE := ⟨fun _ _ _ => Nat.le_trans⟩

/-- Name/email resolution for a newly seen person (lines 200-206): try
`Person.objects.get`; on `DoesNotExist` fall back to the inline embedded
name (or `'Unknown'` when it strips to empty) and inline email. -/
def resolveTouch (persons : List Person) (pid : String) (ref : PersonRef) :
    String × String :=
  match personGet persons pid with
  | some person =>
      (pyStrip (person.first_name ++ " " ++ person.last_name), person.email_address)
  | none =>
      let n := pyStrip ((ref.first_name.getD "") ++ " " ++ (ref.last_name.getD ""))
      (if n = "" then "Unknown" else n, ref.email_address.getD "")

/-- The accumulating dictionary `first_touchpoints`, as an insertion-order
association list keyed by person identifier. -/
abbrev TouchAcc := List (String × Touchpoint)

/-- `person_id in first_touchpoints`. -/
def touchLookup (acc : TouchAcc) (pid : String) : Option Touchpoint :=
  (acc.find? (fun kv => kv.1 == pid)).map (fun kv => kv.2)

/-- The touchpoint dictionary recorded for person `pid` from reference
`ref` of event `e` (lines 208-215). -/
def mkTouch (persons : List Person) (pid : String) (ref : PersonRef)
    (e : ActivityEvent) : Touchpoint :=
  ⟨pid, (resolveTouch persons pid ref).1, (resolveTouch persons pid ref).2,
    e.timestamp, e.activity, e.channel⟩

/-- Process one embedded person-reference of an event (lines 197-215). -/
def recordRef (persons : List Person) (e : ActivityEvent) (acc : TouchAcc)
    (ref : PersonRef) : TouchAcc :=
  match resolvedPid ref with
  | some pid =>
      if (touchLookup acc pid).isSome then acc
      else acc ++ [(pid, mkTouch persons pid ref e)]
  | none => acc

/-- Process one event: loop over its embedded people list (the
`if event.people:` guard is a no-op for the empty list). -/
def recordEvent (persons : List Person) (acc : TouchAcc) (e : ActivityEvent) :
    TouchAcc :=
  e.people.foldl (recordRef persons e) acc

/-- The 200 body of `first_touchpoints`. -/
structure TouchBody where
  first_touchpoints : List Touchpoint
deriving DecidableEq, Repr

/-- `first_touchpoints` (views.py lines 168-225): scan the scoped events
in ascending timestamp order, record the first touchpoint per person
identifier, and return the dictionary's values sorted by timestamp. -/
def first_touchpoints (db : DB) (req : ScopedParams) : Response TouchBody :=
  if !(truthy req.customer_org_id && truthy req.account_id) then
    .badRequest missingParamsMsg
  else
    .ok ⟨(((baseQS db (req.customer_org_id.getD "") (req.account_id.getD "")).foldl
        (recordEvent db.persons) []).map (fun kv => kv.2)).insertionSort touchLE⟩

/-! ### Random sampling endpoints -/

/-- `random_activity_events` (views.py lines 227-254). `shuffle` models
the database's `order_by("?")`: an arbitrary reordering of the matching
rows, supplied by the environment (a faithful database permutes the list).
The body is the raw list of model-field dictionaries (`.values()`). -/
def random_activity_events (db : DB)
    (shuffle : List ActivityEvent → List ActivityEvent) (req : ScopedParams) :
    Response (List ActivityEvent) :=
  if !(truthy req.customer_org_id && truthy req.account_id) then
    .badRequest missingParamsMsg
  else
    .ok ((shuffle (scopeFilter db.events (req.customer_org_id.getD "")
      (req.account_id.getD ""))).take 10)

/-- Error message of `random_persons` when `customer_org_id` is missing. -/
def missingOrgMsg : String :=
  "'customer_org_id' query parameter is required."

/-- `random_persons` (views.py lines 288-308); `shuffle` models
`order_by("?")` on the persons table. -/
def random_persons (db : DB) (shuffle : List Person → List Person)
    (customer_org_id : Option String) : Response (List Person) :=
  if !truthy customer_org_id then
    .badRequest missingOrgMsg
  else
    .ok ((shuffle (db.persons.filter
      (fun p => p.customer_org_id == customer_org_id.getD ""))).take 5)

/-- Whether an event's embedded people list references person `pid`
(some reference resolves to that identifier). -/
def referencesB (e : ActivityEvent) (pid : String) : Bool :=
  e.people.any (fun ref => resolvedPid ref == some pid)

/-! ## Concrete sample rows used by the witnesses -/

/-- A sample embedded person-reference. -/
def refW : PersonRef := ⟨some "7", none, none, none, none, some "GUEST"⟩

/-- A sample event at time 100. -/
def eW1 : ActivityEvent :=
  ⟨1, 100, "email", "gmail", "sent", "IN", "org1", "acc1", [3], [refW]⟩

/-- A sample event at time 300. -/
def eW2 : ActivityEvent :=
  ⟨2, 300, "call", "zoom", "done", "IN", "org1", "acc1", [], [refW]⟩

/-- A sample person matching `refW`. -/
def pW : Person := ⟨"7", "Ada", "Lovelace", "ada@x.io", "org1"⟩

/-- A sample database (events deliberately out of timestamp order). -/
def dbW : DB := ⟨[eW2, eW1], [pW]⟩

/-- A well-formed listing request over the sample scope. -/
def reqW : EventsParams := ⟨some "org1", some "acc1", none, none, none, none⟩

/-- A listing request for out-of-range page 5. -/
def reqW5 : EventsParams := ⟨some "org1", some "acc1", some "5", none, none, none⟩

/-- A listing request with a malformed `page` and missing scope. -/
def reqX : EventsParams := ⟨none, none, some "x", none, none, none⟩

/-- Default body used to extract listing bodies in witnesses. -/
def emptyEventsBody : EventsBody := ⟨[], ⟨0, 0, 0, false, false⟩⟩

/-- A person whose name fields are both the empty string. -/
def pBlank : Person := ⟨"7", "", "", "e@x", "org1"⟩

/-- A database in which the only resolvable person has blank names and the
referencing event's embedded reference carries no name data either. -/
def dbBlank : DB := ⟨[eW1], [pBlank]⟩

/-- Default body used to extract touchpoint bodies in witnesses. -/
def emptyTouchBody : TouchBody := ⟨[]⟩

/-! ## Supporting lemmas -/

theorem truthy_eq_some {o : Option String} (h : truthy o = true) :
    o = some (o.getD "") := by
  cases o with
  | none => simp [truthy] at h
  | some s => rfl

theorem mem_baseQS {db : DB} {org acct : String} {e : ActivityEvent} :
    e ∈ baseQS db org acct ↔
      e ∈ db.events ∧ e.customer_org_id = org ∧ e.account_id = acct := by
  unfold baseQS orderByTimestamp scopeFilter
  rw [List.mem_insertionSort, List.mem_filter]
  simp [Bool.and_eq_true, beq_iff_eq, and_assoc]

theorem baseQS_sorted (db : DB) (org acct : String) :
    List.Pairwise tsLE (baseQS db org acct) :=
  List.sorted_insertionSort tsLE _

theorem applyStartFilter_ok {qs qs' : List ActivityEvent} {sd : Option String}
    (h : applyStartFilter qs sd = .ok qs') :
    qs'.Sublist qs ∧
      ∀ e, e ∈ qs' ↔ e ∈ qs ∧ (truthy sd = true →
        ∃ d, fromisoformat (replaceZ (sd.getD "")) = some d ∧ d ≤ e.timestamp) := by
  unfold applyStartFilter at h
  split at h
  · rename_i htr
    split at h
    · rename_i d hd
      cases h
      refine ⟨List.filter_sublist _, fun e => ?_⟩
      rw [List.mem_filter]
      constructor
      · rintro ⟨he, hle⟩
        exact ⟨he, fun _ => ⟨d, hd, by simpa using hle⟩⟩
      · rintro ⟨he, hx⟩
        rcases hx htr with ⟨d', hd', hle⟩
        rw [hd] at hd'
        cases hd'
        exact ⟨he, by simpa using hle⟩
    · cases h
  · rename_i htr
    cases h
    refine ⟨List.Sublist.refl _, fun e => ?_⟩
    simp only [Bool.not_eq_true] at htr
    simp [htr]

theorem applyEndFilter_ok {qs qs' : List ActivityEvent} {ed : Option String}
    (h : applyEndFilter qs ed = .ok qs') :
    qs'.Sublist qs ∧
      ∀ e, e ∈ qs' ↔ e ∈ qs ∧ (truthy ed = true →
        ∃ d, fromisoformat (replaceZ (ed.getD "")) = some d ∧ e.timestamp ≤ d) := by
  unfold applyEndFilter at h
  split at h
  · rename_i htr
    split at h
    · rename_i d hd
      cases h
      refine ⟨List.filter_sublist _, fun e => ?_⟩
      rw [List.mem_filter]
      constructor
      · rintro ⟨he, hle⟩
        exact ⟨he, fun _ => ⟨d, hd, by simpa using hle⟩⟩
      · rintro ⟨he, hx⟩
        rcases hx htr with ⟨d', hd', hle⟩
        rw [hd] at hd'
        cases hd'
        exact ⟨he, by simpa using hle⟩
    · cases h
  · rename_i htr
    cases h
    refine ⟨List.Sublist.refl _, fun e => ?_⟩
    simp only [Bool.not_eq_true] at htr
    simp [htr]

theorem applyDateFilters_ok {qs qs' : List ActivityEvent} {sd ed : Option String}
    (h : applyDateFilters qs sd ed = .ok qs') :
    qs'.Sublist qs ∧
      ∀ e, e ∈ qs' ↔ e ∈ qs ∧
        (truthy sd = true →
          ∃ d, fromisoformat (replaceZ (sd.getD "")) = some d ∧ d ≤ e.timestamp) ∧
        (truthy ed = true →
          ∃ d, fromisoformat (replaceZ (ed.getD "")) = some d ∧ e.timestamp ≤ d) := by
  unfold applyDateFilters at h
  cases hs : applyStartFilter qs sd with
  | ok qs1 =>
    rw [hs] at h
    rcases applyStartFilter_ok hs with ⟨hsub1, hmem1⟩
    rcases applyEndFilter_ok h with ⟨hsub2, hmem2⟩
    refine ⟨hsub2.trans hsub1, fun e => ?_⟩
    rw [hmem2 e, hmem1 e]
    tauto
  | badRequest m =>
    rw [hs] at h
    cases h
  | exn m =>
    rw [hs] at h
    cases h

theorem pageObjectList_sublist {α : Type} (l : List α) (pp n : Int) :
    (pageObjectList l pp n).Sublist l := by
  unfold pageObjectList pySlice
  exact (List.drop_sublist _ _).trans (List.take_sublist _ _)

theorem activity_events_ok_elim {db : DB} {req : EventsParams} {body : EventsBody}
    (h : activity_events db req = .ok body) :
    ∃ page page_size qs n,
      pyInt? (req.page.getD "1") = some page ∧
      pyInt? (req.page_size.getD "50") = some page_size ∧
      truthy req.customer_org_id = true ∧ truthy req.account_id = true ∧
      applyDateFilters
        (baseQS db (req.customer_org_id.getD "") (req.account_id.getD ""))
        req.start_date req.end_date = .ok qs ∧
      getPageNumber (qs.length : Int) page_size page = .ok n ∧
      body =
        { events := (pageObjectList qs page_size n).map (eventToDict db.persons)
          pagination :=
            { current_page := page
              total_pages := numPages (qs.length : Int) page_size
              total_count := (qs.length : Int)
              has_next := decide (n < numPages (qs.length : Int) page_size)
              has_previous := decide (1 < n) } } := by
  unfold activity_events at h
  split at h
  · cases h
  rename_i page hp
  split at h
  · cases h
  rename_i page_size hps
  split at h
  · cases h
  rename_i hcond
  rw [Bool.not_eq_true, Bool.not_eq_false', Bool.and_eq_true] at hcond
  split at h
  · cases h
  · cases h
  rename_i qs hd
  split at h
  · cases h
  rename_i n hg
  cases h
  exact ⟨page, page_size, qs, n, hp, hps, hcond.1, hcond.2, hd, hg, rfl⟩

theorem eventToDict_people (persons : List Person) (e : ActivityEvent) :
    (eventToDict persons e).people = e.people.map (enrichRef persons) := by
  unfold eventToDict
  split
  · rename_i hemp
    rw [List.isEmpty_iff] at hemp
    simp [hemp]
  · rfl

theorem eventToDict_timestamp (persons : List Person) (e : ActivityEvent) :
    (eventToDict persons e).timestamp = e.timestamp := rfl

theorem eventToDict_customer_org_id (persons : List Person) (e : ActivityEvent) :
    (eventToDict persons e).customer_org_id = e.customer_org_id := rfl

theorem eventToDict_account_id (persons : List Person) (e : ActivityEvent) :
    (eventToDict persons e).account_id = e.account_id := rfl

/-! ## Claims -/

/-- C5: for every successful event-listing request, the returned events
are in non-decreasing order of timestamp, and every returned event's
`customer_org_id` and `account_id` equal the values given in the query. -/
theorem c5_listing_sorted_and_scoped {db : DB} {req : EventsParams}
    {body : EventsBody} (h : activity_events db req = .ok body) :
    List.Pairwise (fun a b : EventOut => a.timestamp ≤ b.timestamp) body.events ∧
    ∀ ev ∈ body.events, req.customer_org_id = some ev.customer_org_id ∧
      req.account_id = some ev.account_id := by
  obtain ⟨page, psz, qs, n, hp, hps, hco, hac, hd, hg, hbody⟩ :=
    activity_events_ok_elim h
  subst hbody
  obtain ⟨hsub, hmem⟩ := applyDateFilters_ok hd
  have hqs : List.Pairwise tsLE qs := (baseQS_sorted db _ _).sublist hsub
  have hpg : List.Pairwise tsLE (pageObjectList qs psz n) :=
    hqs.sublist (pageObjectList_sublist qs psz n)
  constructor
  · rw [List.pairwise_map]
    exact hpg.imp (fun hab => hab)
  · intro ev hev
    rw [List.mem_map] at hev
    obtain ⟨e, he, rfl⟩ := hev
    have he1 : e ∈ qs := (pageObjectList_sublist qs psz n).subset he
    have he2 := (((hmem e).1 he1).1)
    rw [mem_baseQS] at he2
    obtain ⟨-, hco', hac'⟩ := he2
    rw [eventToDict_customer_org_id, eventToDict_account_id, hco', hac']
    exact ⟨truthy_eq_some hco, truthy_eq_some hac⟩

/-- Witness for C5 at a concrete database and request. -/
theorem c5_witness :
    activity_events dbW reqW = .ok ((activity_events dbW reqW).bodyD emptyEventsBody) ∧
    (List.Pairwise (fun a b : EventOut => a.timestamp ≤ b.timestamp)
        ((activity_events dbW reqW).bodyD emptyEventsBody).events ∧
      ∀ ev ∈ ((activity_events dbW reqW).bodyD emptyEventsBody).events,
        reqW.customer_org_id = some ev.customer_org_id ∧
        reqW.account_id = some ev.account_id) :=
  ⟨by decide, @c5_listing_sorted_and_scoped dbW reqW
    ((activity_events dbW reqW).bodyD emptyEventsBody) (by decide)⟩

/-- C9: for every event-listing request whose `page` or `page_size` is
present but not an integer string, `int()` raises an uncaught exception
(a framework 500, not a 400); the statement quantifies over all requests,
including those missing `customer_org_id`/`account_id`, because the parse
runs before the required-parameter check. -/
theorem c9_malformed_page_raises {db : DB} {req : EventsParams} {s : String}
    (h : (req.page = some s ∨ req.page_size = some s) ∧ pyInt? s = none) :
    (activity_events db req).isExn = true := by
  obtain ⟨hloc, hbad⟩ := h
  unfold activity_events
  cases hp : pyInt? (req.page.getD "1") with
  | none => rfl
  | some page =>
    rcases hloc with hl | hl
    · rw [hl, Option.getD_some, hbad] at hp
      cases hp
    · rw [hl, Option.getD_some, hbad]
      rfl

/-- Witness for C9: malformed `page` with the scope parameters missing. -/
theorem c9_witness :
    ((reqX.page = some "x" ∨ reqX.page_size = some "x") ∧ pyInt? "x" = none) ∧
    (activity_events dbW reqX).isExn = true :=
  ⟨⟨Or.inl rfl, by decide⟩, c9_malformed_page_raises ⟨Or.inl rfl, by decide⟩⟩

/-- C10: `current_page` always echoes the requested page number while the
events, `has_next` and `has_previous` reflect the page the paginator
actually served; the final conjunct exhibits a run where the served page
differs from the echoed one. -/
theorem c10_current_page_echoes {db : DB} {req : EventsParams} {body : EventsBody}
    (h : activity_events db req = .ok body) :
    (∃ page page_size qs n,
      pyInt? (req.page.getD "1") = some page ∧
      pyInt? (req.page_size.getD "50") = some page_size ∧
      applyDateFilters (baseQS db (req.customer_org_id.getD "") (req.account_id.getD ""))
        req.start_date req.end_date = .ok qs ∧
      getPageNumber (qs.length : Int) page_size page = .ok n ∧
      body.pagination.current_page = page ∧
      body.events = (pageObjectList qs page_size n).map (eventToDict db.persons) ∧
      body.pagination.has_next = decide (n < numPages (qs.length : Int) page_size) ∧
      body.pagination.has_previous = decide (1 < n)) ∧
    (∃ db' req' body' page' n',
      activity_events db' req' = .ok body' ∧
      pyInt? (req'.page.getD "1") = some page' ∧
      (∃ page_size' qs',
        pyInt? (req'.page_size.getD "50") = some page_size' ∧
        applyDateFilters (baseQS db' (req'.customer_org_id.getD "")
          (req'.account_id.getD "")) req'.start_date req'.end_date = .ok qs' ∧
        getPageNumber (qs'.length : Int) page_size' page' = .ok n') ∧
      n' ≠ page' ∧ body'.pagination.current_page = page') := by
  obtain ⟨page, psz, qs, n, hp, hps, hco, hac, hd, hg, hbody⟩ :=
    activity_events_ok_elim h
  subst hbody
  refine ⟨⟨page, psz, qs, n, hp, hps, hd, hg, rfl, rfl, rfl, rfl⟩, ?_⟩
  refine ⟨dbW, reqW5, (activity_events dbW reqW5).bodyD emptyEventsBody, 5, 1,
    by decide, by decide, ⟨50, baseQS dbW "org1" "acc1", by decide, by decide, by rfl⟩,
    by decide, by decide⟩

/-- Witness for C10 at a request asking for the out-of-range page 5. -/
theorem c10_witness :
    activity_events dbW reqW5 = .ok ((activity_events dbW reqW5).bodyD emptyEventsBody) ∧
    ((∃ page page_size qs n,
      pyInt? (reqW5.page.getD "1") = some page ∧
      pyInt? (reqW5.page_size.getD "50") = some page_size ∧
      applyDateFilters (baseQS dbW (reqW5.customer_org_id.getD "")
        (reqW5.account_id.getD "")) reqW5.start_date reqW5.end_date = .ok qs ∧
      getPageNumber (qs.length : Int) page_size page = .ok n ∧
      ((activity_events dbW reqW5).bodyD emptyEventsBody).pagination.current_page = page ∧
      ((activity_events dbW reqW5).bodyD emptyEventsBody).events =
        (pageObjectList qs page_size n).map (eventToDict dbW.persons) ∧
      ((activity_events dbW reqW5).bodyD emptyEventsBody).pagination.has_next =
        decide (n < numPages (qs.length : Int) page_size) ∧
      ((activity_events dbW reqW5).bodyD emptyEventsBody).pagination.has_previous =
        decide (1 < n)) ∧
    (∃ db' req' body' page' n',
      activity_events db' req' = .ok body' ∧
      pyInt? (req'.page.getD "1") = some page' ∧
      (∃ page_size' qs',
        pyInt? (req'.page_size.getD "50") = some page_size' ∧
        applyDateFilters (baseQS db' (req'.customer_org_id.getD "")
          (req'.account_id.getD "")) req'.start_date req'.end_date = .ok qs' ∧
        getPageNumber (qs'.length : Int) page_size' page' = .ok n') ∧
      n' ≠ page' ∧ body'.pagination.current_page = page')) :=
  ⟨by decide, @c10_current_page_echoes dbW reqW5
    ((activity_events dbW reqW5).bodyD emptyEventsBody) (by decide)⟩

/-- C3: every event returned by the listing endpoint carries the people
list of a stored event mapped through the enrichment step, and the
enrichment step returns the `Person`-built record exactly when the
reference's identifier resolves to an existing `Person`, and the original
embedded reference otherwise (no match, or no identifier). -/
theorem c3_enrichment {db : DB} {req : EventsParams} {body : EventsBody}
    (h : activity_events db req = .ok body) :
    (∀ ev ∈ body.events, ∃ e, e ∈ db.events ∧
        ev.people = e.people.map (enrichRef db.persons)) ∧
    (∀ ref pid p, resolvedPid ref = some pid → personGet db.persons pid = some p →
        enrichRef db.persons ref =
          .enriched p.id p.first_name p.last_name p.email_address
            ref.role_in_touchpoint) ∧
    (∀ ref pid, resolvedPid ref = some pid → personGet db.persons pid = none →
        enrichRef db.persons ref = .original ref) ∧
    (∀ ref, resolvedPid ref = none → enrichRef db.persons ref = .original ref) := by
  obtain ⟨page, psz, qs, n, hp, hps, hco, hac, hd, hg, hbody⟩ :=
    activity_events_ok_elim h
  subst hbody
  refine ⟨?_, ?_, ?_, ?_⟩
  · intro ev hev
    rw [List.mem_map] at hev
    obtain ⟨e, he, rfl⟩ := hev
    have he1 : e ∈ qs := (pageObjectList_sublist qs psz n).subset he
    have he2 := ((applyDateFilters_ok hd).2 e).1 he1 |>.1
    rw [mem_baseQS] at he2
    exact ⟨e, he2.1, eventToDict_people _ _⟩
  · intro ref pid p h1 h2
    simp [enrichRef, h1, h2]
  · intro ref pid h1 h2
    simp [enrichRef, h1, h2]
  · intro ref h1
    simp [enrichRef, h1]

/-- Witness for C3 at a concrete database and request. -/
theorem c3_witness :
    activity_events dbW reqW = .ok ((activity_events dbW reqW).bodyD emptyEventsBody) ∧
    ((∀ ev ∈ ((activity_events dbW reqW).bodyD emptyEventsBody).events,
        ∃ e, e ∈ dbW.events ∧ ev.people = e.people.map (enrichRef dbW.persons)) ∧
    (∀ ref pid p, resolvedPid ref = some pid → personGet dbW.persons pid = some p →
        enrichRef dbW.persons ref =
          .enriched p.id p.first_name p.last_name p.email_address
            ref.role_in_touchpoint) ∧
    (∀ ref pid, resolvedPid ref = some pid → personGet dbW.persons pid = none →
        enrichRef dbW.persons ref = .original ref) ∧
    (∀ ref, resolvedPid ref = none → enrichRef dbW.persons ref = .original ref)) :=
  ⟨by decide, @c3_enrichment dbW reqW
    ((activity_events dbW reqW).bodyD emptyEventsBody) (by decide)⟩

/-- C8: the random events endpoint returns at most 10 records scoped to
the requested customer and account, and the random persons endpoint
returns at most 5 records scoped to the requested customer, for any
database-level random ordering (any permutation). -/
theorem c8_random_limits {db : DB}
    {shufE : List ActivityEvent → List ActivityEvent}
    {shufP : List Person → List Person} {reqE : ScopedParams}
    {org : Option String} {resE : List ActivityEvent} {resP : List Person}
    (hE : ∀ l, (shufE l).Perm l) (hP : ∀ l, (shufP l).Perm l)
    (h1 : random_activity_events db shufE reqE = .ok resE)
    (h2 : random_persons db shufP org = .ok resP) :
    (resE.length ≤ 10 ∧ ∀ e ∈ resE,
      reqE.customer_org_id = some e.customer_org_id ∧
      reqE.account_id = some e.account_id) ∧
    (resP.length ≤ 5 ∧ ∀ p ∈ resP, org = some p.customer_org_id) := by
  unfold random_activity_events at h1
  split at h1
  · cases h1
  rename_i hc1
  rw [Bool.not_eq_true, Bool.not_eq_false', Bool.and_eq_true] at hc1
  cases h1
  unfold random_persons at h2
  split at h2
  · cases h2
  rename_i hc2
  rw [Bool.not_eq_true, Bool.not_eq_false'] at hc2
  cases h2
  refine ⟨⟨List.length_take_le _ _, ?_⟩, List.length_take_le _ _, ?_⟩
  · intro e he
    have hm : e ∈ scopeFilter db.events (reqE.customer_org_id.getD "")
        (reqE.account_id.getD "") :=
      (hE _).subset ((List.take_sublist _ _).subset he)
    unfold scopeFilter at hm
    rw [List.mem_filter, Bool.and_eq_true, beq_iff_eq, beq_iff_eq] at hm
    rw [truthy_eq_some hc1.1, truthy_eq_some hc1.2, hm.2.1, hm.2.2]
    exact ⟨rfl, rfl⟩
  · intro p hp
    have hm : p ∈ db.persons.filter (fun q => q.customer_org_id == org.getD "") :=
      (hP _).subset ((List.take_sublist _ _).subset hp)
    rw [List.mem_filter, beq_iff_eq] at hm
    rw [truthy_eq_some hc2, hm.2]

/-- Witness for C8 with the identity permutation as the random order. -/
theorem c8_witness :
    random_activity_events dbW id ⟨some "org1", some "acc1"⟩ =
      .ok ((random_activity_events dbW id ⟨some "org1", some "acc1"⟩).bodyD []) ∧
    random_persons dbW id (some "org1") =
      .ok ((random_persons dbW id (some "org1")).bodyD []) ∧
    ((((random_activity_events dbW id ⟨some "org1", some "acc1"⟩).bodyD []).length ≤ 10 ∧
      ∀ e ∈ ((random_activity_events dbW id ⟨some "org1", some "acc1"⟩).bodyD []),
        (⟨some "org1", some "acc1"⟩ : ScopedParams).customer_org_id =
          some e.customer_org_id ∧
        (⟨some "org1", some "acc1"⟩ : ScopedParams).account_id = some e.account_id) ∧
    (((random_persons dbW id (some "org1")).bodyD []).length ≤ 5 ∧
      ∀ p ∈ ((random_persons dbW id (some "org1")).bodyD []),
        some "org1" = some p.customer_org_id)) :=
  ⟨by decide, by decide,
    @c8_random_limits dbW id id ⟨some "org1", some "acc1"⟩ (some "org1")
      ((random_activity_events dbW id ⟨some "org1", some "acc1"⟩).bodyD [])
      ((random_persons dbW id (some "org1")).bodyD [])
      (fun l => List.Perm.refl l) (fun l => List.Perm.refl l)
      (by decide) (by decide)⟩

/-- C6: applying `start_date`/`end_date` to the listing queryset narrows
the matched set to a subset of the unfiltered scoped result, and an event
is kept iff it is in scope and its timestamp lies within the given bounds,
both inclusive (a bound counts as given when the parameter is truthy,
i.e. present and non-empty, exactly as in the view). -/
theorem c6_date_filter_subset_inclusive {db : DB} {org acct : String}
    {sd ed : Option String} {qs : List ActivityEvent}
    (h : applyDateFilters (baseQS db org acct) sd ed = .ok qs) :
    applyDateFilters (baseQS db org acct) none none = .ok (baseQS db org acct) ∧
    (∀ e ∈ qs, e ∈ baseQS db org acct) ∧
    (∀ e, e ∈ qs ↔
      (e ∈ db.events ∧ e.customer_org_id = org ∧ e.account_id = acct ∧
        (truthy sd = true →
          ∃ d, fromisoformat (replaceZ (sd.getD "")) = some d ∧ d ≤ e.timestamp) ∧
        (truthy ed = true →
          ∃ d, fromisoformat (replaceZ (ed.getD "")) = some d ∧ e.timestamp ≤ d))) := by
  obtain ⟨hsub, hmem⟩ := applyDateFilters_ok h
  refine ⟨rfl, fun e he => hsub.subset he, fun e => ?_⟩
  rw [hmem e, mem_baseQS]
  tauto

/-- Witness for C6 with both bounds given. -/
theorem c6_witness :
    applyDateFilters (baseQS dbW "org1" "acc1") (some "150") (some "250") =
      .ok ((applyDateFilters (baseQS dbW "org1" "acc1") (some "150")
        (some "250")).bodyD []) ∧
    (applyDateFilters (baseQS dbW "org1" "acc1") none none =
      .ok (baseQS dbW "org1" "acc1") ∧
    (∀ e ∈ (applyDateFilters (baseQS dbW "org1" "acc1") (some "150")
        (some "250")).bodyD [], e ∈ baseQS dbW "org1" "acc1") ∧
    (∀ e, e ∈ (applyDateFilters (baseQS dbW "org1" "acc1") (some "150")
        (some "250")).bodyD [] ↔
      (e ∈ dbW.events ∧ e.customer_org_id = "org1" ∧ e.account_id = "acc1" ∧
        (truthy (some "150") = true →
          ∃ d, fromisoformat (replaceZ ((some "150").getD "")) = some d ∧
            d ≤ e.timestamp) ∧
        (truthy (some "250") = true →
          ∃ d, fromisoformat (replaceZ ((some "250").getD "")) = some d ∧
            e.timestamp ≤ d)))) :=
  ⟨by decide, @c6_date_filter_subset_inclusive dbW "org1" "acc1"
    (some "150") (some "250")
    ((applyDateFilters (baseQS dbW "org1" "acc1") (some "150") (some "250")).bodyD [])
    (by decide)⟩

theorem length_filter_key_eq_count (matching : List ActivityEvent) (d : Nat) :
    (matching.filter (fun e => truncDate e.timestamp == d)).length =
    (matching.map (fun e => truncDate e.timestamp)).count d := by
  induction matching with
  | nil => rfl
  | cons e l ih =>
    simp only [List.filter_cons, List.map_cons, List.count_cons]
    by_cases hd : truncDate e.timestamp = d
    · simp [hd, ← ih]
    · simp [hd, Ne.symm hd, ← ih]

theorem dailyCounts_facts (matching : List ActivityEvent) :
    (((dailyCounts matching).map (fun dc => dc.count)).sum = matching.length) ∧
    ((dailyCounts matching).map (fun dc => dc.date)).Nodup ∧
    List.Pairwise (fun a b : DateCount => a.date ≤ b.date) (dailyCounts matching) ∧
    ∀ dc ∈ dailyCounts matching, 1 ≤ dc.count ∧
      ∃ e ∈ matching, truncDate e.timestamp = dc.date := by
  unfold dailyCounts
  refine ⟨?_, ?_, ?_, ?_⟩
  · rw [List.map_map]
    have h1 : (((matching.map (fun e => truncDate e.timestamp)).dedup.insertionSort
          (· ≤ ·)).map ((fun dc : DateCount => dc.count) ∘
            (fun d => (⟨d, (matching.filter
              (fun e => truncDate e.timestamp == d)).length⟩ : DateCount)))) =
        ((matching.map (fun e => truncDate e.timestamp)).dedup.insertionSort
          (· ≤ ·)).map (fun d =>
            (matching.map (fun e => truncDate e.timestamp)).count d) :=
      List.map_congr_left (fun d _ => length_filter_key_eq_count matching d)
    rw [h1]
    have hperm :
        ((matching.map (fun e => truncDate e.timestamp)).dedup.insertionSort
          (· ≤ ·)).Perm (matching.map (fun e => truncDate e.timestamp)).dedup :=
      List.perm_insertionSort _ _
    rw [(hperm.map (fun d =>
      (matching.map (fun e => truncDate e.timestamp)).count d)).sum_eq]
    rw [List.sum_map_count_dedup_eq_length
      (matching.map (fun e => truncDate e.timestamp))]
    exact List.length_map _ _
  · rw [List.map_map]
    have h2 : (((matching.map (fun e => truncDate e.timestamp)).dedup.insertionSort
          (· ≤ ·)).map ((fun dc : DateCount => dc.date) ∘
            (fun d => (⟨d, (matching.filter
              (fun e => truncDate e.timestamp == d)).length⟩ : DateCount)))) =
        ((matching.map (fun e => truncDate e.timestamp)).dedup.insertionSort
          (· ≤ ·)).map (fun d => d) :=
      List.map_congr_left (fun d _ => rfl)
    rw [h2]
    simpa using ((List.perm_insertionSort _ _).nodup_iff).mpr (List.nodup_dedup _)
  · rw [List.pairwise_map]
    exact (List.sorted_insertionSort (fun a b : Nat => a ≤ b) _).imp
      (fun hab => hab)
  · intro dc hdc
    rw [List.mem_map] at hdc
    obtain ⟨d, hd, rfl⟩ := hdc
    rw [List.mem_insertionSort, List.mem_dedup, List.mem_map] at hd
    obtain ⟨e, he, rfl⟩ := hd
    constructor
    · have hmem : e ∈ matching.filter
          (fun x => truncDate x.timestamp == truncDate e.timestamp) :=
        List.mem_filter.mpr ⟨he, by simp⟩
      exact Nat.succ_le_of_lt (List.length_pos.mpr (List.ne_nil_of_mem hmem))
    · exact ⟨e, he, rfl⟩

/-- C7: for every successful daily-counts request, the counts sum to the
number of events matching the scope and resolved direction, no calendar
date appears twice, the list is ascending by date, and every listed date
is the date of at least one matching event. -/
theorem c7_daily_counts {db : DB} {req : CountsParams} {body : CountsBody}
    (h : activity_counts db req = .ok body) :
    ((body.daily_counts.map (fun dc => dc.count)).sum =
      (directionFilter db.events (req.customer_org_id.getD "")
        (req.account_id.getD "") body.direction).length) ∧
    (body.daily_counts.map (fun dc => dc.date)).Nodup ∧
    List.Pairwise (fun a b : DateCount => a.date ≤ b.date) body.daily_counts ∧
    ∀ dc ∈ body.daily_counts, 1 ≤ dc.count ∧
      ∃ e ∈ directionFilter db.events (req.customer_org_id.getD "")
        (req.account_id.getD "") body.direction,
        truncDate e.timestamp = dc.date := by
  unfold activity_counts at h
  split at h
  · cases h
  cases h
  exact dailyCounts_facts _

/-- Witness for C7 at a concrete database and request. -/
theorem c7_witness :
    activity_counts dbW ⟨some "org1", some "acc1", none⟩ =
      .ok ((activity_counts dbW ⟨some "org1", some "acc1", none⟩).bodyD ⟨[], ""⟩) ∧
    (((((activity_counts dbW ⟨some "org1", some "acc1", none⟩).bodyD
          ⟨[], ""⟩).daily_counts.map (fun dc => dc.count)).sum =
      (directionFilter dbW.events "org1" "acc1"
        ((activity_counts dbW ⟨some "org1", some "acc1", none⟩).bodyD
          ⟨[], ""⟩).direction).length) ∧
    ((((activity_counts dbW ⟨some "org1", some "acc1", none⟩).bodyD
        ⟨[], ""⟩).daily_counts.map (fun dc => dc.date)).Nodup ∧
    List.Pairwise (fun a b : DateCount => a.date ≤ b.date)
      (((activity_counts dbW ⟨some "org1", some "acc1", none⟩).bodyD
        ⟨[], ""⟩).daily_counts) ∧
    ∀ dc ∈ (((activity_counts dbW ⟨some "org1", some "acc1", none⟩).bodyD
        ⟨[], ""⟩).daily_counts), 1 ≤ dc.count ∧
      ∃ e ∈ directionFilter dbW.events "org1" "acc1"
        ((activity_counts dbW ⟨some "org1", some "acc1", none⟩).bodyD
          ⟨[], ""⟩).direction,
        truncDate e.timestamp = dc.date)) :=
  ⟨by decide, @c7_daily_counts dbW ⟨some "org1", some "acc1", none⟩
    ((activity_counts dbW ⟨some "org1", some "acc1", none⟩).bodyD ⟨[], ""⟩)
    (by decide)⟩

theorem applyDateFilters_badRequest_iff (qs : List ActivityEvent)
    (sd ed : Option String) :
    (applyDateFilters qs sd ed).isBadRequest = true ↔
      ((truthy sd = true ∧ fromisoformat (replaceZ (sd.getD "")) = none) ∨
       ((truthy sd = true → fromisoformat (replaceZ (sd.getD "")) ≠ none) ∧
        truthy ed = true ∧ fromisoformat (replaceZ (ed.getD "")) = none)) := by
  by_cases hts : truthy sd = true
  · cases hpd : fromisoformat (replaceZ (sd.getD "")) with
    | none =>
      simp [applyDateFilters, applyStartFilter, applyEndFilter, hts, hpd,
        Response.isBadRequest]
    | some d =>
      by_cases hte : truthy ed = true
      · cases hpe : fromisoformat (replaceZ (ed.getD "")) with
        | none =>
          simp [applyDateFilters, applyStartFilter, applyEndFilter, hts, hte,
            hpd, hpe, Response.isBadRequest]
        | some d2 =>
          simp [applyDateFilters, applyStartFilter, applyEndFilter, hts, hte,
            hpd, hpe, Response.isBadRequest]
      · simp [applyDateFilters, applyStartFilter, applyEndFilter, hts, hte,
          hpd, Response.isBadRequest]
  · by_cases hte : truthy ed = true
    · cases hpe : fromisoformat (replaceZ (ed.getD "")) with
      | none =>
        simp [applyDateFilters, applyStartFilter, applyEndFilter, hts, hte,
          hpe, Response.isBadRequest]
      | some d2 =>
        simp [applyDateFilters, applyStartFilter, applyEndFilter, hts, hte,
          hpe, Response.isBadRequest]
    · simp [applyDateFilters, applyStartFilter, applyEndFilter, hts, hte,
        Response.isBadRequest]

theorem applyDateFilters_not_exn (qs : List ActivityEvent) (sd ed : Option String) :
    (applyDateFilters qs sd ed).isExn = false := by
  by_cases hts : truthy sd = true
  · cases hpd : fromisoformat (replaceZ (sd.getD "")) with
    | none =>
      simp [applyDateFilters, applyStartFilter, applyEndFilter, hts, hpd,
        Response.isExn]
    | some d =>
      by_cases hte : truthy ed = true
      · cases hpe : fromisoformat (replaceZ (ed.getD "")) with
        | none =>
          simp [applyDateFilters, applyStartFilter, applyEndFilter, hts, hte,
            hpd, hpe, Response.isExn]
        | some d2 =>
          simp [applyDateFilters, applyStartFilter, applyEndFilter, hts, hte,
            hpd, hpe, Response.isExn]
      · simp [applyDateFilters, applyStartFilter, applyEndFilter, hts, hte,
          hpd, Response.isExn]
  · by_cases hte : truthy ed = true
    · cases hpe : fromisoformat (replaceZ (ed.getD "")) with
      | none =>
        simp [applyDateFilters, applyStartFilter, applyEndFilter, hts, hte,
          hpe, Response.isExn]
      | some d2 =>
        simp [applyDateFilters, applyStartFilter, applyEndFilter, hts, hte,
          hpe, Response.isExn]
    · simp [applyDateFilters, applyStartFilter, applyEndFilter, hts, hte,
        Response.isExn]

/-- C4 counterexample: two explicit requests on which the claim as stated
fails. First, a request missing both required parameters but carrying the
non-integer `page` `"x"` raises an uncaught exception (framework 500)
instead of returning 400. Second, a request with a present-but-empty
`start_date` — a string `datetime.fromisoformat` cannot parse — is
answered 200, because the view's truthiness test skips the empty string
before ever parsing it. -/
theorem c4_counterexample :
    (activity_events dbW reqX).isExn = true ∧
    (activity_events dbW reqX).isBadRequest = false ∧
    reqX.customer_org_id = none ∧
    (activity_events dbW ⟨some "org1", some "acc1", none, none, some "", none⟩).isOk
      = true ∧
    fromisoformat (replaceZ "") = none := by
  decide

/-- C4 (amended): a 400 with an `"error"` body is returned exactly when a
required parameter is missing or, for the listing endpoint, a truthy
(present and non-empty) date parameter fails to parse — provided, for the
listing endpoint, that `page` and `page_size` parse as integers (otherwise
`int()` raises before the required-parameter check); no other 400 is
produced, and the endpoints without `int()`/date parsing never raise. -/
theorem c4_amended_error_taxonomy :
    (∀ db req, (activity_events db req).isBadRequest = true ↔
      ((pyInt? (req.page.getD "1")).isSome = true ∧
       (pyInt? (req.page_size.getD "50")).isSome = true ∧
       ((truthy req.customer_org_id && truthy req.account_id) = false ∨
        ((truthy req.customer_org_id && truthy req.account_id) = true ∧
         ((truthy req.start_date = true ∧
            fromisoformat (replaceZ (req.start_date.getD "")) = none) ∨
          ((truthy req.start_date = true →
              fromisoformat (replaceZ (req.start_date.getD "")) ≠ none) ∧
            truthy req.end_date = true ∧
            fromisoformat (replaceZ (req.end_date.getD "")) = none)))))) ∧
    (∀ db req, (activity_counts db req).isBadRequest = true ↔
      (truthy req.customer_org_id && truthy req.account_id) = false) ∧
    (∀ db req, (activity_counts db req).isExn = false) ∧
    (∀ db req, (first_touchpoints db req).isBadRequest = true ↔
      (truthy req.customer_org_id && truthy req.account_id) = false) ∧
    (∀ db req, (first_touchpoints db req).isExn = false) ∧
    (∀ db shuffle req,
      (random_activity_events db shuffle req).isBadRequest = true ↔
        (truthy req.customer_org_id && truthy req.account_id) = false) ∧
    (∀ db shuffle req, (random_activity_events db shuffle req).isExn = false) ∧
    (∀ db shuffle org, (random_persons db shuffle org).isBadRequest = true ↔
      truthy org = false) ∧
    (∀ db shuffle org, (random_persons db shuffle org).isExn = false) := by
  refine ⟨?_, ?_, ?_, ?_, ?_, ?_, ?_, ?_, ?_⟩
  · intro db req
    unfold activity_events
    cases hp : pyInt? (req.page.getD "1") with
    | none => simp [Response.isBadRequest]
    | some page =>
      cases hps : pyInt? (req.page_size.getD "50") with
      | none => simp [Response.isBadRequest]
      | some psz =>
        by_cases hc : (truthy req.customer_org_id && truthy req.account_id) = true
        · cases hd : applyDateFilters
              (baseQS db (req.customer_org_id.getD "") (req.account_id.getD ""))
              req.start_date req.end_date with
          | badRequest m =>
            have hconds := (applyDateFilters_badRequest_iff
              (baseQS db (req.customer_org_id.getD "") (req.account_id.getD ""))
              req.start_date req.end_date).mp (by rw [hd]; rfl)
            simp [Response.isBadRequest, hc, hd, hconds]
          | exn m =>
            have := applyDateFilters_not_exn
              (baseQS db (req.customer_org_id.getD "") (req.account_id.getD ""))
              req.start_date req.end_date
            rw [hd] at this
            cases this
          | ok qs =>
            have hnc : ¬((truthy req.start_date = true ∧
                fromisoformat (replaceZ (req.start_date.getD "")) = none) ∨
              ((truthy req.start_date = true →
                  fromisoformat (replaceZ (req.start_date.getD "")) ≠ none) ∧
                truthy req.end_date = true ∧
                fromisoformat (replaceZ (req.end_date.getD "")) = none)) :=
              fun hconds => by
                have := (applyDateFilters_badRequest_iff
                  (baseQS db (req.customer_org_id.getD "") (req.account_id.getD ""))
                  req.start_date req.end_date).mpr hconds
                rw [hd] at this
                cases this
            cases hg : getPageNumber (qs.length : Int) psz page with
            | error m => simp [Response.isBadRequest, hc, hd, hg, hnc]
            | ok n => simp [Response.isBadRequest, hc, hd, hg, hnc]
        · rw [Bool.not_eq_true] at hc
          simp [Response.isBadRequest, hc]
  · intro db req
    unfold activity_counts
    by_cases hc : (truthy req.customer_org_id && truthy req.account_id) = true
    · simp [Response.isBadRequest, hc]
    · rw [Bool.not_eq_true] at hc
      simp [Response.isBadRequest, hc]
  · intro db req
    unfold activity_counts
    by_cases hc : (truthy req.customer_org_id && truthy req.account_id) = true
    · simp [Response.isExn, hc]
    · rw [Bool.not_eq_true] at hc
      simp [Response.isExn, hc]
  · intro db req
    unfold first_touchpoints
    by_cases hc : (truthy req.customer_org_id && truthy req.account_id) = true
    · simp [Response.isBadRequest, hc]
    · rw [Bool.not_eq_true] at hc
      simp [Response.isBadRequest, hc]
  · intro db req
    unfold first_touchpoints
    by_cases hc : (truthy req.customer_org_id && truthy req.account_id) = true
    · simp [Response.isExn, hc]
    · rw [Bool.not_eq_true] at hc
      simp [Response.isExn, hc]
  · intro db shuffle req
    unfold random_activity_events
    by_cases hc : (truthy req.customer_org_id && truthy req.account_id) = true
    · simp [Response.isBadRequest, hc]
    · rw [Bool.not_eq_true] at hc
      simp [Response.isBadRequest, hc]
  · intro db shuffle req
    unfold random_activity_events
    by_cases hc : (truthy req.customer_org_id && truthy req.account_id) = true
    · simp [Response.isExn, hc]
    · rw [Bool.not_eq_true] at hc
      simp [Response.isExn, hc]
  · intro db shuffle org
    unfold random_persons
    by_cases hc : truthy org = true
    · simp [Response.isBadRequest, hc]
    · rw [Bool.not_eq_true] at hc
      simp [Response.isBadRequest, hc]
  · intro db shuffle org
    unfold random_persons
    by_cases hc : truthy org = true
    · simp [Response.isExn, hc]
    · rw [Bool.not_eq_true] at hc
      simp [Response.isExn, hc]

/-! ## First-touchpoint scan lemmas -/

theorem touchLookup_nil (pid : String) : touchLookup [] pid = none := rfl

theorem recordRef_eq_of_none (persons : List Person) (e : ActivityEvent)
    (acc : TouchAcc) (ref : PersonRef) (hr : resolvedPid ref = none) :
    recordRef persons e acc ref = acc := by
  unfold recordRef
  rw [hr]

theorem recordRef_eq_of_some (persons : List Person) (e : ActivityEvent)
    (acc : TouchAcc) (ref : PersonRef) (pid' : String)
    (hr : resolvedPid ref = some pid') :
    recordRef persons e acc ref =
      if (touchLookup acc pid').isSome = true then acc
      else acc ++ [(pid', mkTouch persons pid' ref e)] := by
  unfold recordRef
  rw [hr]

theorem touchLookup_append (acc1 acc2 : TouchAcc) (pid : String) :
    touchLookup (acc1 ++ acc2) pid =
      (touchLookup acc1 pid).or (touchLookup acc2 pid) := by
  unfold touchLookup
  rw [List.find?_append]
  cases List.find? (fun kv => kv.1 == pid) acc1 <;> simp

theorem touchLookup_singleton (pid pid' : String) (tp : Touchpoint) :
    touchLookup [(pid', tp)] pid =
      if (pid' == pid) = true then some tp else none := by
  by_cases h : (pid' == pid) = true
  · rw [if_pos h]
    unfold touchLookup
    rw [@List.find?_cons_of_pos _ (fun kv => kv.1 == pid) (pid', tp) [] h]
    rfl
  · rw [if_neg h]
    unfold touchLookup
    rw [@List.find?_cons_of_neg _ (fun kv => kv.1 == pid) (pid', tp) [] h]
    rfl

theorem touchLookup_eq_none_iff (acc : TouchAcc) (pid : String) :
    touchLookup acc pid = none ↔ ∀ kv ∈ acc, kv.1 ≠ pid := by
  unfold touchLookup
  rw [Option.map_eq_none']
  rw [List.find?_eq_none]
  simp

theorem touchLookup_recordRef (persons : List Person) (e : ActivityEvent)
    (acc : TouchAcc) (ref : PersonRef) (pid : String) :
    touchLookup (recordRef persons e acc ref) pid =
      if resolvedPid ref = some pid ∧ touchLookup acc pid = none then
        some (mkTouch persons pid ref e)
      else touchLookup acc pid := by
  cases hr : resolvedPid ref with
  | none =>
    rw [recordRef_eq_of_none persons e acc ref hr]
    rw [if_neg (by rintro ⟨h1, -⟩; cases h1)]
  | some pid' =>
    rw [recordRef_eq_of_some persons e acc ref pid' hr]
    by_cases hl : (touchLookup acc pid').isSome = true
    · rw [if_pos hl]
      rw [if_neg ?_]
      rintro ⟨h1, h2⟩
      injection h1 with h1
      rw [h1, h2] at hl
      cases hl
    · rw [if_neg hl]
      rw [Option.not_isSome_iff_eq_none] at hl
      rw [touchLookup_append, touchLookup_singleton]
      by_cases hpp : pid' = pid
      · subst hpp
        rw [hl]
        simp
      · rw [if_neg (show ¬((pid' == pid) = true) by simp [hpp])]
        rw [Option.or_none]
        rw [if_neg (by rintro ⟨h1, -⟩; injection h1 with h1; exact hpp h1)]

theorem touchLookup_foldRefs (persons : List Person) (e : ActivityEvent)
    (pid : String) :
    ∀ (refs : List PersonRef) (acc : TouchAcc),
    touchLookup (refs.foldl (recordRef persons e) acc) pid =
      if touchLookup acc pid = none then
        match refs.find? (fun ref => resolvedPid ref == some pid) with
        | some ref => some (mkTouch persons pid ref e)
        | none => none
      else touchLookup acc pid := by
  intro refs
  induction refs with
  | nil =>
    intro acc
    by_cases ha : touchLookup acc pid = none
    · rw [List.foldl_nil, if_pos ha, List.find?_nil, ha]
    · rw [List.foldl_nil, if_neg ha]
  | cons ref refs ih =>
    intro acc
    rw [List.foldl_cons, ih]
    by_cases ha : touchLookup acc pid = none
    · by_cases hm : resolvedPid ref = some pid
      · have hstep : touchLookup (recordRef persons e acc ref) pid =
            some (mkTouch persons pid ref e) := by
          rw [touchLookup_recordRef, if_pos ⟨hm, ha⟩]
        rw [hstep]
        rw [if_neg (show ¬(some (mkTouch persons pid ref e) = none) by simp)]
        rw [if_pos ha]
        rw [@List.find?_cons_of_pos _ (fun r => resolvedPid r == some pid)
          ref refs (by simp [hm])]
      · have hstep : touchLookup (recordRef persons e acc ref) pid =
            touchLookup acc pid := by
          rw [touchLookup_recordRef, if_neg (by rintro ⟨h1, -⟩; exact hm h1)]
        rw [hstep, if_pos ha]
        rw [@List.find?_cons_of_neg _ (fun r => resolvedPid r == some pid)
          ref refs (by simp [hm])]
        rw [if_pos ha]
    · have hstep : touchLookup (recordRef persons e acc ref) pid =
          touchLookup acc pid := by
        rw [touchLookup_recordRef]
        rw [if_neg (by rintro ⟨-, h2⟩; exact ha h2)]
      rw [hstep, if_neg ha]
      rw [if_neg ha]

theorem touchLookup_recordEvent (persons : List Person) (e : ActivityEvent)
    (acc : TouchAcc) (pid : String) :
    touchLookup (recordEvent persons acc e) pid =
      if touchLookup acc pid = none then
        match e.people.find? (fun ref => resolvedPid ref == some pid) with
        | some ref => some (mkTouch persons pid ref e)
        | none => none
      else touchLookup acc pid :=
  touchLookup_foldRefs persons e pid e.people acc

theorem referencesB_iff_find (e : ActivityEvent) (pid : String) :
    referencesB e pid = true ↔
      (e.people.find? (fun ref => resolvedPid ref == some pid)).isSome = true := by
  unfold referencesB
  rw [List.any_eq_true, List.find?_isSome]

theorem touchLookup_foldEvents (persons : List Person) (pid : String) :
    ∀ (evs : List ActivityEvent) (acc : TouchAcc),
    touchLookup (evs.foldl (recordEvent persons) acc) pid =
      if touchLookup acc pid = none then
        match evs.find? (fun e => referencesB e pid) with
        | some e =>
            match e.people.find? (fun ref => resolvedPid ref == some pid) with
            | some ref => some (mkTouch persons pid ref e)
            | none => none
        | none => none
      else touchLookup acc pid := by
  intro evs
  induction evs with
  | nil =>
    intro acc
    by_cases ha : touchLookup acc pid = none
    · rw [List.foldl_nil, if_pos ha, List.find?_nil, ha]
    · rw [List.foldl_nil, if_neg ha]
  | cons e evs ih =>
    intro acc
    rw [List.foldl_cons, ih]
    by_cases ha : touchLookup acc pid = none
    · by_cases hb : referencesB e pid = true
      · have hfs := (referencesB_iff_find e pid).mp hb
        cases hr : e.people.find? (fun ref => resolvedPid ref == some pid) with
        | none => rw [hr] at hfs; cases hfs
        | some ref =>
          have hstep : touchLookup (recordEvent persons acc e) pid =
              some (mkTouch persons pid ref e) := by
            rw [touchLookup_recordEvent, if_pos ha, hr]
          rw [hstep]
          rw [if_neg (show ¬(some (mkTouch persons pid ref e) = none) by simp)]
          rw [if_pos ha]
          rw [@List.find?_cons_of_pos _ (fun x => referencesB x pid) e evs hb]
          simp [hr]
      · have hr : e.people.find? (fun ref => resolvedPid ref == some pid) = none := by
          cases hr : e.people.find? (fun ref => resolvedPid ref == some pid) with
          | none => rfl
          | some ref =>
            exact absurd ((referencesB_iff_find e pid).mpr (by rw [hr]; rfl)) hb
        have hstep : touchLookup (recordEvent persons acc e) pid =
            touchLookup acc pid := by
          rw [touchLookup_recordEvent, if_pos ha, hr, ha]
        rw [hstep, if_pos ha]
        rw [@List.find?_cons_of_neg _ (fun x => referencesB x pid) e evs hb]
        rw [if_pos ha]
    · have hstep : touchLookup (recordEvent persons acc e) pid =
          touchLookup acc pid := by
        rw [touchLookup_recordEvent, if_neg ha]
      rw [hstep, if_neg ha]
      rw [if_neg ha]

theorem mem_foldRefs (persons : List Person) (e : ActivityEvent) :
    ∀ (refs : List PersonRef) (acc : TouchAcc) (kv : String × Touchpoint),
    kv ∈ refs.foldl (recordRef persons e) acc →
    kv ∈ acc ∨ ∃ ref ∈ refs, resolvedPid ref = some kv.1 ∧
      kv.2 = mkTouch persons kv.1 ref e := by
  intro refs
  induction refs with
  | nil =>
    intro acc kv hkv
    exact Or.inl hkv
  | cons ref refs ih =>
    intro acc kv hkv
    rw [List.foldl_cons] at hkv
    rcases ih _ kv hkv with hacc | ⟨r, hr, h1, h2⟩
    · cases hres : resolvedPid ref with
      | none =>
        rw [recordRef_eq_of_none persons e acc ref hres] at hacc
        exact Or.inl hacc
      | some pid' =>
        rw [recordRef_eq_of_some persons e acc ref pid' hres] at hacc
        by_cases hl : (touchLookup acc pid').isSome = true
        · rw [if_pos hl] at hacc
          exact Or.inl hacc
        · rw [if_neg hl] at hacc
          rcases List.mem_append.mp hacc with h | h
          · exact Or.inl h
          · rcases List.mem_singleton.mp h with rfl
            exact Or.inr ⟨ref, List.mem_cons_self _ _, hres, rfl⟩
    · exact Or.inr ⟨r, List.mem_cons_of_mem _ hr, h1, h2⟩

theorem mem_foldEvents (persons : List Person) :
    ∀ (evs : List ActivityEvent) (acc : TouchAcc) (kv : String × Touchpoint),
    kv ∈ evs.foldl (recordEvent persons) acc →
    kv ∈ acc ∨ ∃ e ∈ evs, ∃ ref ∈ e.people, resolvedPid ref = some kv.1 ∧
      kv.2 = mkTouch persons kv.1 ref e := by
  intro evs
  induction evs with
  | nil =>
    intro acc kv hkv
    exact Or.inl hkv
  | cons e evs ih =>
    intro acc kv hkv
    rw [List.foldl_cons] at hkv
    rcases ih _ kv hkv with hacc | ⟨e', he', ref, hrm, h1, h2⟩
    · rcases mem_foldRefs persons e e.people acc kv hacc with h | ⟨ref, hrm, h1, h2⟩
      · exact Or.inl h
      · exact Or.inr ⟨e, List.mem_cons_self _ _, ref, hrm, h1, h2⟩
    · exact Or.inr ⟨e', List.mem_cons_of_mem _ he', ref, hrm, h1, h2⟩

theorem keysNodup_recordRef (persons : List Person) (e : ActivityEvent)
    (acc : TouchAcc) (ref : PersonRef)
    (h : (acc.map (fun kv => kv.1)).Nodup) :
    ((recordRef persons e acc ref).map (fun kv => kv.1)).Nodup := by
  cases hres : resolvedPid ref with
  | none =>
    rw [recordRef_eq_of_none persons e acc ref hres]
    exact h
  | some pid' =>
    rw [recordRef_eq_of_some persons e acc ref pid' hres]
    by_cases hl : (touchLookup acc pid').isSome = true
    · rw [if_pos hl]
      exact h
    · rw [if_neg hl]
      rw [Option.not_isSome_iff_eq_none, touchLookup_eq_none_iff] at hl
      rw [List.map_append]
      rw [List.nodup_append]
      refine ⟨h, List.nodup_singleton _, ?_⟩
      intro a ha hb
      rw [List.mem_map] at ha
      obtain ⟨kv, hkv, rfl⟩ := ha
      rcases List.mem_singleton.mp hb with h'
      exact hl kv hkv h'

theorem keysNodup_foldRefs (persons : List Person) (e : ActivityEvent) :
    ∀ (refs : List PersonRef) (acc : TouchAcc),
    (acc.map (fun kv => kv.1)).Nodup →
    ((refs.foldl (recordRef persons e) acc).map (fun kv => kv.1)).Nodup := by
  intro refs
  induction refs with
  | nil => intro acc h; exact h
  | cons ref refs ih =>
    intro acc h
    rw [List.foldl_cons]
    exact ih _ (keysNodup_recordRef persons e acc ref h)

theorem keysNodup_foldEvents (persons : List Person) :
    ∀ (evs : List ActivityEvent) (acc : TouchAcc),
    (acc.map (fun kv => kv.1)).Nodup →
    ((evs.foldl (recordEvent persons) acc).map (fun kv => kv.1)).Nodup := by
  intro evs
  induction evs with
  | nil => intro acc h; exact h
  | cons e evs ih =>
    intro acc h
    rw [List.foldl_cons]
    exact ih _ (keysNodup_foldRefs persons e e.people acc h)

theorem touchLookup_of_mem :
    ∀ {acc : TouchAcc}, (acc.map (fun kv => kv.1)).Nodup →
    ∀ {kv : String × Touchpoint}, kv ∈ acc → touchLookup acc kv.1 = some kv.2 := by
  intro acc
  induction acc with
  | nil =>
    intro _ kv hkv
    cases hkv
  | cons hd tl ih =>
    intro hnd kv hkv
    rw [List.map_cons, List.nodup_cons] at hnd
    rcases List.mem_cons.mp hkv with rfl | hm
    · unfold touchLookup
      rw [@List.find?_cons_of_pos _ (fun x => x.1 == kv.1) kv tl (by simp)]
      rfl
    · have hne : ¬((hd.1 == kv.1) = true) := by
        simp only [beq_iff_eq]
        intro hEq
        exact hnd.1 (hEq ▸ List.mem_map.mpr ⟨kv, hm, rfl⟩)
      unfold touchLookup
      rw [@List.find?_cons_of_neg _ (fun x => x.1 == kv.1) hd tl hne]
      exact ih hnd.2 hm

theorem find?_first_le {p : ActivityEvent → Bool} :
    ∀ {l : List ActivityEvent}, List.Pairwise tsLE l →
    ∀ {a : ActivityEvent}, l.find? p = some a →
    ∀ b ∈ l, p b = true → a.timestamp ≤ b.timestamp := by
  intro l
  induction l with
  | nil =>
    intro _ a ha
    cases ha
  | cons hd tl ih =>
    intro hp a ha b hb hpb
    rw [List.pairwise_cons] at hp
    by_cases hhd : p hd = true
    · rw [List.find?_cons_of_pos _ hhd] at ha
      injection ha with ha
      subst ha
      rcases List.mem_cons.mp hb with rfl | hm
      · exact Nat.le_refl _
      · exact hp.1 b hm
    · rw [List.find?_cons_of_neg _ hhd] at ha
      rcases List.mem_cons.mp hb with rfl | hm
      · exact absurd hpb hhd
      · exact ih hp.2 ha b hm hpb

theorem first_touchpoints_ok_elim {db : DB} {req : ScopedParams}
    {body : TouchBody} (h : first_touchpoints db req = .ok body) :
    truthy req.customer_org_id = true ∧ truthy req.account_id = true ∧
    body = ⟨(((baseQS db (req.customer_org_id.getD "") (req.account_id.getD "")).foldl
      (recordEvent db.persons) []).map (fun kv => kv.2)).insertionSort touchLE⟩ := by
  unfold first_touchpoints at h
  split at h
  · cases h
  rename_i hcond
  rw [Bool.not_eq_true, Bool.not_eq_false', Bool.and_eq_true] at hcond
  cases h
  exact ⟨hcond.1, hcond.2, rfl⟩

/-- C1: for every successful first-touchpoints request, each person
identifier appears at most once in the returned list, each touchpoint's
timestamp is the minimum timestamp among the scoped events whose embedded
people list references that person (it is attained and is a lower bound),
and the list is sorted ascending by timestamp. -/
theorem c1_first_touchpoints_unique_min_sorted {db : DB} {req : ScopedParams}
    {body : TouchBody} (h : first_touchpoints db req = .ok body) :
    (body.first_touchpoints.map (fun tp => tp.person_id)).Nodup ∧
    (∀ tp ∈ body.first_touchpoints,
      (∃ e, e ∈ db.events ∧ e.customer_org_id = req.customer_org_id.getD "" ∧
        e.account_id = req.account_id.getD "" ∧
        referencesB e tp.person_id = true ∧ tp.timestamp = e.timestamp) ∧
      (∀ e ∈ db.events, e.customer_org_id = req.customer_org_id.getD "" →
        e.account_id = req.account_id.getD "" →
        referencesB e tp.person_id = true → tp.timestamp ≤ e.timestamp)) ∧
    List.Pairwise (fun a b : Touchpoint => a.timestamp ≤ b.timestamp)
      body.first_touchpoints := by
  obtain ⟨hco, hac, hbody⟩ := first_touchpoints_ok_elim h
  subst hbody
  have hknd : ((((baseQS db (req.customer_org_id.getD "")
      (req.account_id.getD "")).foldl (recordEvent db.persons) []).map
        (fun kv => kv.1))).Nodup :=
    keysNodup_foldEvents db.persons _ [] (by simp)
  have hinv : ∀ kv ∈ (baseQS db (req.customer_org_id.getD "")
      (req.account_id.getD "")).foldl (recordEvent db.persons) [],
      kv.2.person_id = kv.1 := by
    intro kv hkv
    rcases mem_foldEvents db.persons _ [] kv hkv with hin | ⟨e, -, ref, -, -, h2⟩
    · cases hin
    · rw [h2]
      rfl
  refine ⟨?_, ?_, ?_⟩
  · have hperm := (List.perm_insertionSort touchLE
      (((baseQS db (req.customer_org_id.getD "")
        (req.account_id.getD "")).foldl (recordEvent db.persons) []).map
          (fun kv => kv.2))).map (fun tp => tp.person_id)
    refine (hperm.nodup_iff).mpr ?_
    rw [List.map_map]
    have heq : (((baseQS db (req.customer_org_id.getD "")
        (req.account_id.getD "")).foldl (recordEvent db.persons) []).map
          ((fun tp : Touchpoint => tp.person_id) ∘ (fun kv => kv.2))) =
        (((baseQS db (req.customer_org_id.getD "")
        (req.account_id.getD "")).foldl (recordEvent db.persons) []).map
          (fun kv => kv.1)) :=
      List.map_congr_left (fun kv hkv => hinv kv hkv)
    rw [heq]
    exact hknd
  · intro tp htp
    rw [List.mem_insertionSort, List.mem_map] at htp
    obtain ⟨kv, hkv, rfl⟩ := htp
    have hlook : touchLookup ((baseQS db (req.customer_org_id.getD "")
        (req.account_id.getD "")).foldl (recordEvent db.persons) []) kv.1 =
        some kv.2 :=
      touchLookup_of_mem hknd hkv
    rw [touchLookup_foldEvents db.persons kv.1 _ []] at hlook
    rw [if_pos (touchLookup_nil kv.1)] at hlook
    cases hf : (baseQS db (req.customer_org_id.getD "")
        (req.account_id.getD "")).find? (fun e => referencesB e kv.1) with
    | none =>
      rw [hf] at hlook
      cases hlook
    | some e0 =>
      simp only [hf] at hlook
      cases hr : e0.people.find? (fun ref => resolvedPid ref == some kv.1) with
      | none =>
        simp only [hr] at hlook
        cases hlook
      | some ref =>
        simp only [hr] at hlook
        injection hlook with hlook
        have hpid : kv.2.person_id = kv.1 := by
          rw [← hlook]
          rfl
        have hts : kv.2.timestamp = e0.timestamp := by
          rw [← hlook]
          rfl
        have he0m := mem_baseQS.mp (List.mem_of_find?_eq_some hf)
        have he0r : referencesB e0 kv.1 = true :=
          @List.find?_some _ (fun e => referencesB e kv.1) e0 _ hf
        constructor
        · exact ⟨e0, he0m.1, he0m.2.1, he0m.2.2, by rw [hpid]; exact he0r, hts⟩
        · intro e he hsc1 hsc2 href
          rw [hpid] at href
          rw [hts]
          exact find?_first_le (baseQS_sorted db _ _) hf e
            (mem_baseQS.mpr ⟨he, hsc1, hsc2⟩) href
  · rw [show (fun a b : Touchpoint => a.timestamp ≤ b.timestamp) = touchLE from rfl]
    exact List.sorted_insertionSort touchLE _

/-- Witness for C1 at a concrete database and request. -/
theorem c1_witness :
    first_touchpoints dbW ⟨some "org1", some "acc1"⟩ =
      .ok ((first_touchpoints dbW ⟨some "org1", some "acc1"⟩).bodyD emptyTouchBody) ∧
    ((((first_touchpoints dbW ⟨some "org1", some "acc1"⟩).bodyD
        emptyTouchBody).first_touchpoints.map (fun tp => tp.person_id)).Nodup ∧
    (∀ tp ∈ ((first_touchpoints dbW ⟨some "org1", some "acc1"⟩).bodyD
        emptyTouchBody).first_touchpoints,
      (∃ e, e ∈ dbW.events ∧
        e.customer_org_id = ((some "org1" : Option String).getD "") ∧
        e.account_id = ((some "acc1" : Option String).getD "") ∧
        referencesB e tp.person_id = true ∧ tp.timestamp = e.timestamp) ∧
      (∀ e ∈ dbW.events,
        e.customer_org_id = ((some "org1" : Option String).getD "") →
        e.account_id = ((some "acc1" : Option String).getD "") →
        referencesB e tp.person_id = true → tp.timestamp ≤ e.timestamp)) ∧
    List.Pairwise (fun a b : Touchpoint => a.timestamp ≤ b.timestamp)
      ((first_touchpoints dbW ⟨some "org1", some "acc1"⟩).bodyD
        emptyTouchBody).first_touchpoints) :=
  ⟨by decide, @c1_first_touchpoints_unique_min_sorted dbW
    ⟨some "org1", some "acc1"⟩
    ((first_touchpoints dbW ⟨some "org1", some "acc1"⟩).bodyD emptyTouchBody)
    (by decide)⟩

/-- C2 counterexample: in `dbBlank`, person `"7"` exists with empty first
and last names and the referencing event's embedded reference carries no
name data either, so no name data exists anywhere; the claim then demands
`person_name = "Unknown"`, but the view returns the empty string, because
the `or 'Unknown'` default sits only in the `Person.DoesNotExist` fallback
branch and the lookup succeeds here. -/
theorem c2_counterexample :
    first_touchpoints dbBlank ⟨some "org1", some "acc1"⟩ =
      .ok ⟨[⟨"7", "", "e@x", 100, "email", "gmail"⟩]⟩ ∧
    pBlank.id = "7" ∧ pBlank.first_name = "" ∧ pBlank.last_name = "" ∧
    refW.first_name = none ∧ refW.last_name = none ∧
    ("" : String) ≠ "Unknown" := by
  decide

/-- C2 (amended): each recorded touchpoint's name and email come from
`resolveTouch` applied to an embedded reference of a scoped event that
resolves to that person identifier; `resolveTouch` uses the `Person`
record's stripped name and email as-is (even when blank) whenever the
lookup succeeds, and only on lookup failure falls back to the inline
embedded name/email with `"Unknown"` exactly when the inline name strips
to empty. -/
theorem c2_resolution_amended {db : DB} {req : ScopedParams} {body : TouchBody}
    (h : first_touchpoints db req = .ok body) :
    (∀ tp ∈ body.first_touchpoints,
      ∃ e, e ∈ db.events ∧ e.customer_org_id = req.customer_org_id.getD "" ∧
        e.account_id = req.account_id.getD "" ∧
        ∃ ref, ref ∈ e.people ∧ resolvedPid ref = some tp.person_id ∧
          (tp.person_name, tp.email) = resolveTouch db.persons tp.person_id ref) ∧
    (∀ pid ref p, personGet db.persons pid = some p →
        resolveTouch db.persons pid ref =
          (pyStrip (p.first_name ++ " " ++ p.last_name), p.email_address)) ∧
    (∀ pid ref, personGet db.persons pid = none →
        resolveTouch db.persons pid ref =
          (if pyStrip ((ref.first_name.getD "") ++ " " ++ (ref.last_name.getD ""))
              = "" then "Unknown"
            else pyStrip ((ref.first_name.getD "") ++ " " ++ (ref.last_name.getD "")),
           ref.email_address.getD "")) := by
  obtain ⟨hco, hac, hbody⟩ := first_touchpoints_ok_elim h
  subst hbody
  refine ⟨?_, ?_, ?_⟩
  · intro tp htp
    rw [List.mem_insertionSort, List.mem_map] at htp
    obtain ⟨kv, hkv, rfl⟩ := htp
    rcases mem_foldEvents db.persons _ [] kv hkv with hin | ⟨e, he, ref, hrm, h1, h2⟩
    · cases hin
    · have hem := mem_baseQS.mp he
      have hpid : kv.2.person_id = kv.1 := by
        rw [h2]
        rfl
      refine ⟨e, hem.1, hem.2.1, hem.2.2, ref, hrm, by rw [hpid]; exact h1, ?_⟩
      rw [hpid, h2]
      rfl
  · intro pid ref p hp
    unfold resolveTouch
    rw [hp]
  · intro pid ref hp
    unfold resolveTouch
    rw [hp]

/-- Witness for the amended C2 at a concrete database and request. -/
theorem c2_witness :
    first_touchpoints dbW ⟨some "org1", some "acc1"⟩ =
      .ok ((first_touchpoints dbW ⟨some "org1", some "acc1"⟩).bodyD emptyTouchBody) ∧
    ((∀ tp ∈ ((first_touchpoints dbW ⟨some "org1", some "acc1"⟩).bodyD
        emptyTouchBody).first_touchpoints,
      ∃ e, e ∈ dbW.events ∧
        e.customer_org_id = ((some "org1" : Option String).getD "") ∧
        e.account_id = ((some "acc1" : Option String).getD "") ∧
        ∃ ref, ref ∈ e.people ∧ resolvedPid ref = some tp.person_id ∧
          (tp.person_name, tp.email) = resolveTouch dbW.persons tp.person_id ref) ∧
    (∀ pid ref p, personGet dbW.persons pid = some p →
        resolveTouch dbW.persons pid ref =
          (pyStrip (p.first_name ++ " " ++ p.last_name), p.email_address)) ∧
    (∀ pid ref, personGet dbW.persons pid = none →
        resolveTouch dbW.persons pid ref =
          (if pyStrip ((ref.first_name.getD "") ++ " " ++ (ref.last_name.getD ""))
              = "" then "Unknown"
            else pyStrip ((ref.first_name.getD "") ++ " " ++ (ref.last_name.getD "")),
           ref.email_address.getD ""))) :=
  ⟨by decide, @c2_resolution_amended dbW ⟨some "org1", some "acc1"⟩
    ((first_touchpoints dbW ⟨some "org1", some "acc1"⟩).bodyD emptyTouchBody)
    (by decide)⟩

end Upside
